import Mathlib

/-!
Verification development for the AutoShift frontend (React/TypeScript).

The definitions below are a shallow embedding of the repository's core
logic:

* `useInstallerLogs` (src/unnamed/part_001): the resumable log-streaming
  client — persisted cursor (`localStorage` keys `autoshift:lastJobId`,
  `autoshift:lastSeq`), snapshot hydration, the `EventSource.onmessage`
  handler, buffering and `flushBufferToState` with ring-buffer eviction.
* `CreateClusterForm.handleCreateCluster` and `lib/api.ts`: the
  four-step create plan (policy exemption, subnet creation,
  install-config push, installer start), its error classification and
  per-step timeouts; the single-step destroy plan.
* `HoldToConfirmButton.tick` and `DeleteClusterCard` (`ClusterCard.tick`):
  the hold-to-confirm gesture with its one-shot fired latch.
* `DeleteClusterPanel.deletableClusters`: the status filter guarding the
  destroy gate.

JavaScript strings are modelled as `List Char` (`Str`); `localStorage`
is modelled as an optional-value record; timestamps and durations are
integers.  Remote calls are modelled by their response records, with the
HTTP-level success bit (`res.ok`) kept separate from the body's `ok`
field, exactly as the code distinguishes them.
-/

/-- JS strings, modelled as lists of characters. -/
abbrev Str := List Char

/-- JS `hay.includes(needle)`: substring test, from the semantics of
`String.prototype.includes`. -/
def strIncludes (hay needle : Str) : Bool :=
  if needle.isPrefixOf hay then true
  else
    match hay with
    | [] => false
    | _ :: t => strIncludes t needle

/-- The slice of `localStorage` owned by `useInstallerLogs`: the keys
`<...>:lastJobId` and `<...>:lastSeq` (`part_001`, lines 263-264).  A `none`
field models an absent key; the stored sequence is kept as a number
(the code round-trips it through `String(seq)` / `Number(...)`). -/
structure LogStore where
  lastJobId : Option Str
  lastSeq : Option Nat
  deriving DecidableEq, Repr

/-- `Number(localStorage.getItem(SEQ_KEY) ?? '0')` (`part_001`, lines 332
and 362): the resume sequence read, defaulting to `0`. -/
def getStoredSeq (st : LogStore) : Nat :=
  st.lastSeq.getD 0

/-- `setPersistedCursor` (`part_001`, lines 426-428):
`localStorage.setItem(SEQ_KEY, String(seq))` — an unconditional write. -/
def setPersistedCursor (st : LogStore) (seq : Nat) : LogStore :=
  { st with lastSeq := some seq }

/-- `clearPersistedJob` (`part_001`, lines 422-425): removes both keys. -/
def clearPersistedJob (_st : LogStore) : LogStore :=
  { lastJobId := none, lastSeq := none }

/-- Ring-buffer eviction inside `flushBufferToState` (`part_001`,
line 298): `if (next.length > maxLines) return next.slice(next.length -
maxLines)`. -/
def evict (maxLines : Nat) (next : List α) : List α :=
  if next.length > maxLines then next.drop (next.length - maxLines) else next

/-- `flushBufferToState` (`part_001`, lines 292-305) on the subscriber
state: given the current visible list `prev` and the internal buffer,
returns the new visible list and the new (emptied) buffer.  An empty
buffer is an early return. -/
def flushBufferToState (maxLines : Nat) (prev buffer : List Str) :
    List Str × List Str :=
  if buffer = [] then (prev, buffer)
  else (evict maxLines (prev ++ buffer), [])

/-- The terminal-line test in `es.onmessage` (`part_001`, line 385):
`line === '[done]' || line.includes('[done]') || line.includes('[error]')`. -/
def isTerminalLine (line : Str) : Bool :=
  line = "[done]".toList || strIncludes line "[done]".toList ||
    strIncludes line "[error]".toList

/-- One server-sent event as seen by `es.onmessage`: `ev.lastEventId`
(absent or non-numeric-empty modelled as `none`) and `ev.data`
(`none` models `ev.data == null`). -/
structure SseEvent where
  lastEventId : Option Nat
  data : Option Str
  deriving DecidableEq, Repr

/-- Primitive observable effects performed by the streaming client, in
program order. -/
inductive StreamEffect where
  | setCursorSeq (seq : Nat)
  | appendBuffer (line : Str)
  | setInstallingEff (b : Bool)
  | flushEff
  | stopStreamEff
  deriving DecidableEq, Repr

/-- The body of `es.onmessage` (`part_001`, lines 370-390) as the ordered
list of effects it performs: if `ev.data` is null, nothing; else if
`ev.lastEventId` is set, the cursor is persisted; then an empty payload
(heartbeat) is ignored; otherwise the line is pushed to the buffer, and a
terminal token additionally stops installing, flushes, and closes the
stream. -/
def onmessageTrace (ev : SseEvent) : List StreamEffect :=
  match ev.data with
  | none => []
  | some d =>
    let cursorWrite :=
      match ev.lastEventId with
      | some n => [StreamEffect.setCursorSeq n]
      | none => []
    if d = [] then cursorWrite
    else
      cursorWrite ++ [StreamEffect.appendBuffer d] ++
        (if isTerminalLine d then
          [StreamEffect.setInstallingEff false, StreamEffect.flushEff,
            StreamEffect.stopStreamEff]
        else [])

/-- The snapshot response of `GET /api/installer/logs/{jobId}?from=0`:
HTTP-level success, the `lines` array of `[seq, text]` pairs, the
reported `lastSeq` (`none` models a non-number), and `done`. -/
structure SnapResp where
  httpOk : Bool
  lines : List (Nat × Str)
  lastSeq : Option Nat
  done : Bool
  deriving DecidableEq, Repr

/-- Snapshot hydration (`part_001`, lines 331-356) as its ordered effect
trace: on HTTP success the cursor is persisted first
(`localStorage.setItem(SEQ_KEY, String(lastSeq))`, line 345), then the
snapshot lines are pushed to the buffer and flushed, and `done` stops
installing; on failure nothing happens (the catch swallows it). -/
def snapshotHydrationTrace (fromSeq : Nat) (snap : SnapResp) :
    List StreamEffect :=
  if snap.httpOk then
    StreamEffect.setCursorSeq (snap.lastSeq.getD fromSeq) ::
      (snap.lines.map (fun p => StreamEffect.appendBuffer p.2) ++
        [StreamEffect.flushEff] ++
        (if snap.done then [StreamEffect.setInstallingEff false] else []))
  else []

/-- Observable client state acted on by `StreamEffect`s. -/
structure StreamObsState where
  cursor : Option Nat
  buffer : List Str
  visible : List Str
  installing : Bool
  streamOpen : Bool
  deriving DecidableEq, Repr

/-- Interpretation of one `StreamEffect` on the observable state. -/
def applyStreamEffect (maxLines : Nat) (s : StreamObsState) :
    StreamEffect → StreamObsState
  | StreamEffect.setCursorSeq n => { s with cursor := some n }
  | StreamEffect.appendBuffer l => { s with buffer := s.buffer ++ [l] }
  | StreamEffect.setInstallingEff b => { s with installing := b }
  | StreamEffect.flushEff =>
    let r := flushBufferToState maxLines s.visible s.buffer
    { s with visible := r.1, buffer := r.2 }
  | StreamEffect.stopStreamEff => { s with streamOpen := false, installing := false }

/-- Folding a whole effect trace over the observable state. -/
def applyStreamTrace (maxLines : Nat) (s : StreamObsState)
    (tr : List StreamEffect) : StreamObsState :=
  tr.foldl (applyStreamEffect maxLines) s

/-- One attachment-level input for the ghost-instrumented run: a flush
timer tick, or a stream message carrying its sequence id and payload
(the claims' assumption is that live events carry ids). -/
inductive StreamAct where
  | tick
  | msg (seq : Nat) (data : Str)
  deriving DecidableEq, Repr

/-- The sequence ids carried by a list of stream acts. -/
def actIds (acts : List StreamAct) : List Nat :=
  acts.filterMap (fun a =>
    match a with
    | StreamAct.tick => none
    | StreamAct.msg n _ => some n)

/-- Ghost-instrumented attachment state: the visible list and the
internal buffer keep each line's sequence id alongside its text (the
code stores only the text; the id is bookkeeping used to state the
ordering claims). -/
structure AttachState where
  visible : List (Nat × Str)
  buffer : List (Nat × Str)
  cursor : Nat
  installing : Bool
  deriving DecidableEq, Repr

/-- `flushBufferToState` on the ghost-instrumented state. -/
def flushSt (maxLines : Nat) (s : AttachState) : AttachState :=
  if s.buffer = [] then s
  else { s with visible := evict maxLines (s.visible ++ s.buffer), buffer := [] }

/-- One step of the live-subscription phase of `startLogStream`
(`part_001`, lines 365-390): a timer tick flushes; a message persists the
cursor, ignores heartbeats, otherwise appends the line to the buffer and,
on a terminal token, flushes. -/
def stepAct (maxLines : Nat) (s : AttachState) : StreamAct → AttachState
  | StreamAct.tick => flushSt maxLines s
  | StreamAct.msg n d =>
    let s1 := { s with cursor := n }
    if d = [] then s1
    else
      let s2 := { s1 with buffer := s1.buffer ++ [(n, d)] }
      if isTerminalLine d then flushSt maxLines { s2 with installing := false }
      else s2

/-- Folding attachment inputs. -/
def runActs (maxLines : Nat) (s : AttachState) : List StreamAct → AttachState
  | [] => s
  | a :: rest => runActs maxLines (stepAct maxLines s a) rest

/-- One whole `startLogStream(jobId)` attachment (`part_001`, lines
319-401): reset the visible list and buffer, hydrate from the snapshot
(push the snapshot lines and flush; if `done`, stop without subscribing),
then process the live events and timer ticks. -/
def runAttach (maxLines fromSeq : Nat) (snap : SnapResp)
    (acts : List StreamAct) : AttachState :=
  let s0 : AttachState :=
    { visible := [], buffer := [], cursor := fromSeq, installing := true }
  if snap.httpOk then
    let s1 := { s0 with cursor := snap.lastSeq.getD fromSeq,
                        buffer := s0.buffer ++ snap.lines }
    let s2 := flushSt maxLines s1
    if snap.done then { s2 with installing := false }
    else runActs maxLines s2 acts
  else runActs maxLines s0 acts

/-! ## Ordering lemmas for the streaming client -/

theorem evict_sublist (m : Nat) (l : List α) : (evict m l).Sublist l := by
  unfold evict
  split
  · exact List.drop_sublist _ _
  · exact List.Sublist.refl _

theorem flushSt_ids_sublist (m : Nat) (s : AttachState) :
    (((flushSt m s).visible ++ (flushSt m s).buffer).map Prod.fst).Sublist
      ((s.visible ++ s.buffer).map Prod.fst) := by
  unfold flushSt
  split
  · exact List.Sublist.refl _
  · simpa using List.Sublist.map Prod.fst (evict_sublist m (s.visible ++ s.buffer))

theorem stepAct_ids_sublist (m : Nat) (s : AttachState) (a : StreamAct) :
    (((stepAct m s a).visible ++ (stepAct m s a).buffer).map Prod.fst).Sublist
      (((s.visible ++ s.buffer).map Prod.fst) ++ actIds [a]) := by
  cases a with
  | tick =>
    simpa [stepAct, actIds] using flushSt_ids_sublist m s
  | msg n d =>
    by_cases hd : d = []
    · simp only [stepAct, hd, if_pos]
      simpa [actIds] using
        (List.sublist_append_left ((s.visible ++ s.buffer).map Prod.fst) [n])
    · by_cases ht : isTerminalLine d = true
      · have h1 := flushSt_ids_sublist m
          { s with cursor := n, buffer := s.buffer ++ [(n, d)], installing := false }
        simp only [stepAct, hd, if_neg, ht, if_pos]
        refine h1.trans ?_
        simpa [actIds, List.append_assoc] using List.Sublist.refl
          (((s.visible ++ s.buffer).map Prod.fst) ++ [n])
      · simp only [stepAct, hd, if_neg, ht]
        simpa [actIds, List.append_assoc] using List.Sublist.refl
          (((s.visible ++ s.buffer).map Prod.fst) ++ [n])

theorem actIds_cons (a : StreamAct) (rest : List StreamAct) :
    actIds (a :: rest) = actIds [a] ++ actIds rest := by
  cases a <;> simp [actIds]

theorem runActs_ids_sublist (m : Nat) (acts : List StreamAct) :
    ∀ s : AttachState,
      (((runActs m s acts).visible ++ (runActs m s acts).buffer).map
        Prod.fst).Sublist
        (((s.visible ++ s.buffer).map Prod.fst) ++ actIds acts) := by
  induction acts with
  | nil =>
    intro s
    simpa [runActs, actIds] using
      List.Sublist.refl ((s.visible ++ s.buffer).map Prod.fst)
  | cons a rest ih =>
    intro s
    have h1 := ih (stepAct m s a)
    have h2 := (stepAct_ids_sublist m s a).append
      (List.Sublist.refl (actIds rest))
    have h3 : runActs m s (a :: rest) = runActs m (stepAct m s a) rest := rfl
    rw [h3, actIds_cons, ← List.append_assoc]
    exact h1.trans h2

theorem runAttach_ids_sublist (m fromSeq : Nat) (snap : SnapResp)
    (acts : List StreamAct) :
    (((runAttach m fromSeq snap acts).visible ++
        (runAttach m fromSeq snap acts).buffer).map Prod.fst).Sublist
      ((snap.lines.map Prod.fst) ++ actIds acts) := by
  obtain ⟨hok, lines, lastSeq, done⟩ := snap
  cases hok with
  | false =>
    have h1 := runActs_ids_sublist m acts
      { visible := ([] : List (Nat × Str)), buffer := [],
        cursor := fromSeq, installing := true }
    simp only [List.append_nil, List.map_nil, List.nil_append] at h1
    simp only [runAttach, Bool.false_eq_true, if_false]
    exact h1.trans (List.sublist_append_right (lines.map Prod.fst) (actIds acts))
  | true =>
    cases done with
    | true =>
      have h1 := flushSt_ids_sublist m
        { visible := ([] : List (Nat × Str)), buffer := [] ++ lines,
          cursor := lastSeq.getD fromSeq, installing := true }
      simp only [List.nil_append] at h1
      simp only [runAttach, if_true]
      exact List.Sublist.trans (by simpa using h1)
        (List.sublist_append_left (lines.map Prod.fst) (actIds acts))
    | false =>
      have h1 := runActs_ids_sublist m acts (flushSt m
        { visible := ([] : List (Nat × Str)), buffer := [] ++ lines,
          cursor := lastSeq.getD fromSeq, installing := true })
      have h2 := (flushSt_ids_sublist m
        { visible := ([] : List (Nat × Str)), buffer := [] ++ lines,
          cursor := lastSeq.getD fromSeq, installing := true }).append
        (List.Sublist.refl (actIds acts))
      simp only [List.nil_append] at h2
      simp only [runAttach, Bool.false_eq_true, if_false, if_true]
      exact h1.trans (by simpa using h2)

/-- C1: within one `startLogStream` attachment, assuming the snapshot
lines and stream events carry strictly increasing sequence ids all above
the requested resume point, the sequence ids of the lines handed to the
subscriber-visible list are strictly increasing and pairwise distinct
(no line delivered twice); and each flush hands the whole buffered batch
over in arrival order (appended after the previous visible lines, then
suffix-evicted).  The final state of `runAttach` over an arbitrary input
list covers every intermediate point, since any reachable point is the
final state of some input prefix. -/
theorem logstream_delivery_ordered (maxLines fromSeq : Nat) (snap : SnapResp)
    (acts : List StreamAct) (st : AttachState)
    (hsorted : List.Sorted (· < ·) ((snap.lines.map Prod.fst) ++ actIds acts))
    (hresume : ∀ i ∈ (snap.lines.map Prod.fst) ++ actIds acts, fromSeq < i)
    (hst : st.buffer ≠ []) :
    List.Sorted (· < ·)
        (((runAttach maxLines fromSeq snap acts).visible).map Prod.fst) ∧
      (((runAttach maxLines fromSeq snap acts).visible).map Prod.fst).Nodup ∧
      (flushSt maxLines st).visible = evict maxLines (st.visible ++ st.buffer) := by
  have hsub :
      ((((runAttach maxLines fromSeq snap acts).visible).map Prod.fst)).Sublist
        ((snap.lines.map Prod.fst) ++ actIds acts) := by
    refine List.Sublist.trans ?_ (runAttach_ids_sublist maxLines fromSeq snap acts)
    exact List.Sublist.map Prod.fst
      (List.sublist_append_left _ (runAttach maxLines fromSeq snap acts).buffer)
  have hs : List.Sorted (· < ·)
      (((runAttach maxLines fromSeq snap acts).visible).map Prod.fst) :=
    List.Pairwise.sublist hsub hsorted
  refine ⟨hs, List.Sorted.nodup hs, ?_⟩
  unfold flushSt
  rw [if_neg hst]

/-- Witness for `logstream_delivery_ordered` at a concrete attachment:
snapshot lines 1,2, then a live line 3, a flush tick, a heartbeat
carrying id 4, and a terminal line 5. -/
theorem logstream_delivery_ordered_witness :
    List.Sorted (· < ·)
        (((runAttach 2 0 ⟨true, [(1, "a".toList), (2, "b".toList)], some 2, false⟩
          [StreamAct.msg 3 "c".toList, StreamAct.tick, StreamAct.msg 4 [],
            StreamAct.msg 5 "[done]".toList]).visible).map Prod.fst) ∧
      (((runAttach 2 0 ⟨true, [(1, "a".toList), (2, "b".toList)], some 2, false⟩
          [StreamAct.msg 3 "c".toList, StreamAct.tick, StreamAct.msg 4 [],
            StreamAct.msg 5 "[done]".toList]).visible).map Prod.fst).Nodup ∧
      (flushSt 2 ⟨[(1, "a".toList)], [(2, "b".toList)], 2, true⟩).visible =
        evict 2 ([(1, "a".toList)] ++ [(2, "b".toList)]) :=
  logstream_delivery_ordered 2 0 _ _ _ (by decide) (by decide) (by decide)

/-- C2 (counterexample): `setPersistedCursor` is not monotonic — called
with `3` while the stored sequence is `5`, it is not a no-op: the stored
value becomes `3`. -/
theorem setPersistedCursor_not_monotonic :
    3 < getStoredSeq { lastJobId := none, lastSeq := some 5 } ∧
      setPersistedCursor { lastJobId := none, lastSeq := some 5 } 3 ≠
        { lastJobId := none, lastSeq := some 5 } := by
  constructor
  · decide
  · intro h
    have := congrArg LogStore.lastSeq h
    simp [setPersistedCursor] at this

/-- C2 (amended): `setPersistedCursor n` unconditionally overwrites the
stored sequence with `n`, even when `n` is smaller — the persisted
cursor can decrease (and the callers rely on this: `handleCreateCluster`
and `DeleteClusterPanel.handleDelete` reset it to `0` before attaching a
new job). -/
theorem setPersistedCursor_overwrites (st : LogStore) (n : Nat) :
    (setPersistedCursor st n).lastSeq = some n := rfl

/-- C3 (counterexample): a heartbeat event (empty payload) that carries
an event id advances the persisted cursor — from `5` to `8` here — while
nothing is handed to the subscriber's buffer, contradicting the claim
that the cursor is written only after the corresponding line has been
buffered and that heartbeats never advance it. -/
theorem heartbeat_advances_cursor :
    (applyStreamTrace 8000 ⟨some 5, [], [], true, true⟩
        (onmessageTrace ⟨some 8, some []⟩)).cursor = some 8 ∧
      (applyStreamTrace 8000 ⟨some 5, [], [], true, true⟩
        (onmessageTrace ⟨some 8, some []⟩)).cursor ≠ some 5 ∧
      (applyStreamTrace 8000 ⟨some 5, [], [], true, true⟩
        (onmessageTrace ⟨some 8, some []⟩)).buffer = [] ∧
      (applyStreamTrace 8000 ⟨some 5, [], [], true, true⟩
        (onmessageTrace ⟨some 8, some []⟩)).visible = [] := by
  refine ⟨rfl, ?_, rfl, rfl⟩
  decide

/-- C3 (amended): the persisted-cursor write comes first, before the
line is handed to the buffer: in `es.onmessage` the first effect of any
event carrying an id is the cursor write, a heartbeat carrying an id
performs only the cursor write, and snapshot hydration persists
`lastSeq` before pushing and flushing the snapshot lines. -/
theorem cursor_written_before_buffer :
    (∀ (n : Nat) (d : Str),
        (onmessageTrace ⟨some n, some d⟩).head? =
          some (StreamEffect.setCursorSeq n)) ∧
      (∀ n : Nat,
        onmessageTrace ⟨some n, some []⟩ = [StreamEffect.setCursorSeq n]) ∧
      (∀ (fromSeq : Nat) (snap : SnapResp), snap.httpOk = true →
        (snapshotHydrationTrace fromSeq snap).head? =
          some (StreamEffect.setCursorSeq (snap.lastSeq.getD fromSeq))) := by
  refine ⟨?_, ?_, ?_⟩
  · intro n d
    by_cases hd : d = [] <;> simp [onmessageTrace, hd]
  · intro n
    simp [onmessageTrace]
  · intro fromSeq snap h
    simp [snapshotHydrationTrace, h]

/-- Witness for `cursor_written_before_buffer` at concrete events and a
concrete snapshot. -/
theorem cursor_written_before_buffer_witness :
    (onmessageTrace ⟨some 7, some "hi".toList⟩).head? =
        some (StreamEffect.setCursorSeq 7) ∧
      onmessageTrace ⟨some 9, some []⟩ = [StreamEffect.setCursorSeq 9] ∧
      (snapshotHydrationTrace 0 ⟨true, [], some 4, false⟩).head? =
        some (StreamEffect.setCursorSeq 4) :=
  ⟨cursor_written_before_buffer.1 7 "hi".toList,
    cursor_written_before_buffer.2.1 9,
    cursor_written_before_buffer.2.2 0 ⟨true, [], some 4, false⟩ rfl⟩

/-- C8: after a flush of a non-empty buffer the visible list holds at
most `maxLines` lines; when the previous visible list plus the flushed
batch exceeds `maxLines`, exactly the oldest surplus lines are dropped
and the most recent `maxLines` are retained in order; otherwise nothing
is dropped. -/
theorem flush_ring_buffer_eviction (maxLines : Nat) (prev buf : List Str)
    (hbuf : buf ≠ []) :
    (flushBufferToState maxLines prev buf).1.length ≤ maxLines ∧
      ((prev ++ buf).length > maxLines →
        (flushBufferToState maxLines prev buf).1 =
          (prev ++ buf).drop ((prev ++ buf).length - maxLines)) ∧
      ((prev ++ buf).length ≤ maxLines →
        (flushBufferToState maxLines prev buf).1 = prev ++ buf) := by
  have hfl : (flushBufferToState maxLines prev buf).1 =
      evict maxLines (prev ++ buf) := by
    unfold flushBufferToState
    rw [if_neg hbuf]
  rw [hfl]
  unfold evict
  by_cases h : (prev ++ buf).length > maxLines
  · rw [if_pos h]
    refine ⟨?_, fun _ => rfl, fun hle => absurd h (by omega)⟩
    simp only [List.length_drop]
    omega
  · rw [if_neg h]
    exact ⟨by omega, fun hgt => absurd hgt h, fun _ => rfl⟩

/-- Witness for `flush_ring_buffer_eviction`: flushing one line onto a
two-line visible list with `maxLines = 2` drops the oldest line. -/
theorem flush_ring_buffer_eviction_witness :
    (flushBufferToState 2 ["a".toList, "b".toList] ["c".toList]).1.length ≤ 2 ∧
      ((["a".toList, "b".toList] ++ ["c".toList]).length > 2 →
        (flushBufferToState 2 ["a".toList, "b".toList] ["c".toList]).1 =
          (["a".toList, "b".toList] ++ ["c".toList]).drop
            ((["a".toList, "b".toList] ++ ["c".toList]).length - 2)) ∧
      ((["a".toList, "b".toList] ++ ["c".toList]).length ≤ 2 →
        (flushBufferToState 2 ["a".toList, "b".toList] ["c".toList]).1 =
          ["a".toList, "b".toList] ++ ["c".toList]) :=
  flush_ring_buffer_eviction 2 _ _ (by decide)

/-! ## The job orchestrator: create plan, error classification, timeouts -/

/-- JS `String.prototype.toLowerCase` restricted to ASCII letters, which
is all the classifier compares against. -/
def lowerChar (c : Char) : Char :=
  if 65 ≤ c.toNat ∧ c.toNat ≤ 90 then Char.ofNat (c.toNat + 32) else c

/-- Lowercasing a whole string. -/
def lowerStr (s : Str) : Str := s.map lowerChar

/-- The four steps of the create plan, in source order
(`CreateClusterForm.handleCreateCluster`). -/
inductive CStep where
  | exemption
  | subnets
  | push
  | start
  deriving DecidableEq, Repr

/-- The create plan's step order as written in `handleCreateCluster`. -/
def createPlanOrder : List CStep :=
  [CStep.exemption, CStep.subnets, CStep.push, CStep.start]

/-- A workflow-call response: HTTP status plus the JSON body fields the
code reads (`{ ok, created?, error?, conflicts?, jobId? }`).  Fields not
present in a given endpoint's body are simply unread. -/
structure ApiResp where
  status : Nat
  ok : Bool
  error : Option Str
  created : Bool
  conflicts : List Str
  jobId : Str
  deriving DecidableEq, Repr

/-- `res.ok`: HTTP status in the 2xx range. -/
def httpRespOk (r : ApiResp) : Bool :=
  decide (200 ≤ r.status) && decide (r.status < 300)

/-- The `json<T>` helper (`api.ts`, lines 4-14): throws iff the HTTP
status is not ok, with message `data.error || ... || "Request failed
(status)"`; otherwise returns the body unexamined (the body's own `ok`
flag is NOT checked here). -/
def apiJson (r : ApiResp) : Except Str ApiResp :=
  if httpRespOk r then Except.ok r
  else Except.error
    (r.error.getD (("Request failed (" ++ toString r.status ++ ")").toList))

/-- `pushInstallConfig` (`api.ts`, lines 70-93): throws iff `!res.ok ||
!data.ok`, with message `data.error || "Failed to push install-config"`. -/
def pushInstallConfigCall (r : ApiResp) : Except Str ApiResp :=
  if httpRespOk r = false || r.ok = false then
    Except.error (r.error.getD "Failed to push install-config".toList)
  else Except.ok r

/-- The inline installer-start fetch in `handleCreateCluster` (lines
276-286): throws iff `!startRes.ok || !startData.ok`, with message
`startData?.error || "Failed to start installer"`. -/
def startInstallerInline (r : ApiResp) : Except Str ApiResp :=
  if httpRespOk r = false || r.ok = false then
    Except.error (r.error.getD "Failed to start installer".toList)
  else Except.ok r

/-- `destroyCluster` (`api.ts`, lines 110-122): throws iff `!res.ok ||
!data.ok`, with message `data.error || "Failed to start destroy"`. -/
def destroyClusterCall (r : ApiResp) : Except Str ApiResp :=
  if httpRespOk r = false || r.ok = false then
    Except.error (r.error.getD "Failed to start destroy".toList)
  else Except.ok r

/-- The catch-branch classifier of `handleCreateCluster` (lines 305-313):
auth (401 / missing cookie), then authorization (403 / forbidden), then
the generic `Create cluster failed` toast carrying the raw message.  No
branch recognises a name conflict. -/
def classifyCreateError (msg : Str) : Str × Str :=
  if strIncludes msg "Missing cookie".toList || strIncludes msg "401".toList then
    ("You are not logged in".toList, "Please sign in again.".toList)
  else if strIncludes msg "403".toList ||
      strIncludes (lowerStr msg) "forbidden".toList then
    ("Access denied".toList, ("Missing required \"User\" role.").toList)
  else
    ("Create cluster failed".toList, msg)

/-- Observable outcome of one `handleCreateCluster` invocation: the
steps whose remote call was issued (in order), the success toasts shown
(the completed steps' observable effects, never undone), the classified
error toast if any, and the job attachment effects of the success path. -/
structure CreateOutcome where
  attempted : List CStep
  successToasts : List Str
  errorToast : Option (Str × Str)
  cursorReset : Bool
  streamJobId : Option Str
  deriving DecidableEq, Repr

/-- `handleCreateCluster` (`InstallerLogsCard.tsx` source, lines
236-317), given the four responses: (1) `ensurePolicyExemption` through
`json` — HTTP failure throws; (2) `createSubnets` through `json`;
(3) `pushInstallConfig`; (4) the inline installer-start fetch.  Each
`await` that throws jumps to the catch, which classifies the message;
successes accumulate toasts; on full success the cursor is reset to 0
and the log stream is attached to the returned job id.  (The early
returns for a missing name or missing subnets precede the plan and are
not modelled.) -/
def handleCreateCluster (exR subR pushR startR : ApiResp) : CreateOutcome :=
  match apiJson exR with
  | Except.error msg =>
    { attempted := [CStep.exemption], successToasts := [],
      errorToast := some (classifyCreateError msg),
      cursorReset := false, streamJobId := none }
  | Except.ok ex =>
    let exToast := if ex.created then "Policy exemption created".toList
      else "Policy exemption already exists".toList
    match apiJson subR with
    | Except.error msg =>
      { attempted := [CStep.exemption, CStep.subnets],
        successToasts := [exToast],
        errorToast := some (classifyCreateError msg),
        cursorReset := false, streamJobId := none }
    | Except.ok _ =>
      match pushInstallConfigCall pushR with
      | Except.error msg =>
        { attempted := [CStep.exemption, CStep.subnets, CStep.push],
          successToasts := [exToast, "Subnets created".toList],
          errorToast := some (classifyCreateError msg),
          cursorReset := false, streamJobId := none }
      | Except.ok _ =>
        match startInstallerInline startR with
        | Except.error msg =>
          { attempted := createPlanOrder,
            successToasts := [exToast, "Subnets created".toList,
              "install-config.yaml uploaded to installer VM".toList],
            errorToast := some (classifyCreateError msg),
            cursorReset := false, streamJobId := none }
        | Except.ok st =>
          { attempted := createPlanOrder,
            successToasts := [exToast, "Subnets created".toList,
              "install-config.yaml uploaded to installer VM".toList,
              "Installer started".toList,
              "Cluster creation initiated!".toList],
            errorToast := none,
            cursorReset := true, streamJobId := some st.jobId }

/-- The timeout table `T` of `api.ts` (lines 38-42). -/
def Tshort : Nat := 60000

/-- `T.medium` (2 minutes). -/
def Tmedium : Nat := 120000

/-- `T.long` (10 minutes: VM start + SSH ready + write file). -/
def Tlong : Nat := 600000

/-- The timeout actually attached to each create-plan step as invoked by
`handleCreateCluster`: `ensurePolicyExemption` passes `T.short`,
`createSubnets` and `pushInstallConfig` pass `T.long`, and the inline
installer-start call uses plain `fetch` with no timeout at all (the
`startInstaller` helper in `api.ts` with `T.medium` exists but is not
what `handleCreateCluster` calls). -/
def createStepTimeoutMs : CStep → Option Nat
  | CStep.exemption => some Tshort
  | CStep.subnets => some Tlong
  | CStep.push => some Tlong
  | CStep.start => none

/-- The destroy plan's single step, `destroyCluster`, passes `T.long`. -/
def destroyTimeoutMs : Option Nat := some Tlong

/-- `fetchWithTimeout` (`api.ts`, lines 16-35): a single attempt; if the
response has not arrived when the abort timer fires, the AbortError is
turned into `Request timed out after Ns` (the JS `Math.round(timeoutMs /
1000)` agrees with Nat division for the multiples of 1000 used).  There
is no retry. -/
def fetchWithTimeout (timeoutMs latencyMs : Nat) (resp : ApiResp) :
    Except Str ApiResp :=
  if latencyMs < timeoutMs then Except.ok resp
  else Except.error
    (("Request timed out after " ++ toString (timeoutMs / 1000) ++ "s").toList)

/-- A successful workflow response (200, `ok: true`) as used by the
concrete plan runs. -/
def okApiResp : ApiResp :=
  { status := 200, ok := true, error := none, created := true,
    conflicts := [], jobId := "install-123".toList }

/-- The name-collision response of the subnet-create step: HTTP 409 with
`ok=false` and a non-empty `conflicts` list. -/
def conflictSubnetsResp : ApiResp :=
  { status := 409, ok := false,
    error := some "Subnet name already exists: foo-master-subnet".toList,
    created := false, conflicts := ["foo-master-subnet".toList], jobId := [] }

/-- An unrelated generic failure response of the subnet-create step. -/
def genericFailResp : ApiResp :=
  { status := 500, ok := false, error := some "boom".toList,
    created := false, conflicts := [], jobId := [] }

/-- C5: the create plan runs its four steps strictly in source order
(the attempted steps are always an order-respecting front segment of
[exemption, subnets, push, start]); when the subnet step fails no later
step is attempted and the exemption's completed effect (its success
toast) is still observable; when the push step fails the start step is
not attempted and the effects of both completed steps remain. -/
theorem create_plan_strict_order :
    (∀ exR subR pushR startR : ApiResp,
        (handleCreateCluster exR subR pushR startR).attempted =
          createPlanOrder.take
            (handleCreateCluster exR subR pushR startR).attempted.length) ∧
      (∀ exR subR pushR startR : ApiResp, httpRespOk exR = true →
        httpRespOk subR = false →
        (handleCreateCluster exR subR pushR startR).attempted =
            [CStep.exemption, CStep.subnets] ∧
          CStep.push ∉ (handleCreateCluster exR subR pushR startR).attempted ∧
          CStep.start ∉ (handleCreateCluster exR subR pushR startR).attempted ∧
          (handleCreateCluster exR subR pushR startR).successToasts =
            [if exR.created then "Policy exemption created".toList
              else "Policy exemption already exists".toList]) ∧
      (∀ exR subR pushR startR : ApiResp, httpRespOk exR = true →
        httpRespOk subR = true →
        (httpRespOk pushR = false ∨ pushR.ok = false) →
        (handleCreateCluster exR subR pushR startR).attempted =
            [CStep.exemption, CStep.subnets, CStep.push] ∧
          CStep.start ∉ (handleCreateCluster exR subR pushR startR).attempted ∧
          (handleCreateCluster exR subR pushR startR).successToasts =
            [if exR.created then "Policy exemption created".toList
              else "Policy exemption already exists".toList,
              "Subnets created".toList]) := by
  refine ⟨?_, ?_, ?_⟩
  · intro r1 r2 r3 r4
    cases h1 : apiJson r1 with
    | error m => simp [handleCreateCluster, h1, createPlanOrder]
    | ok ex =>
      cases h2 : apiJson r2 with
      | error m => simp [handleCreateCluster, h1, h2, createPlanOrder]
      | ok s2 =>
        cases h3 : pushInstallConfigCall r3 with
        | error m => simp [handleCreateCluster, h1, h2, h3, createPlanOrder]
        | ok p =>
          cases h4 : startInstallerInline r4 with
          | error m => simp [handleCreateCluster, h1, h2, h3, h4, createPlanOrder]
          | ok st => simp [handleCreateCluster, h1, h2, h3, h4, createPlanOrder]
  · intro r1 r2 r3 r4 hx hs
    have h1 : apiJson r1 = Except.ok r1 := by simp [apiJson, hx]
    have h2 : apiJson r2 = Except.error
        (r2.error.getD (("Request failed (" ++ toString r2.status ++ ")").toList)) := by
      simp [apiJson, hs]
    simp [handleCreateCluster, h1, h2]
  · intro r1 r2 r3 r4 hx hs hp
    have h1 : apiJson r1 = Except.ok r1 := by simp [apiJson, hx]
    have h2 : apiJson r2 = Except.ok r2 := by simp [apiJson, hs]
    have h3 : pushInstallConfigCall r3 = Except.error
        (r3.error.getD "Failed to push install-config".toList) := by
      rcases hp with h | h <;> simp [pushInstallConfigCall, h]
    simp [handleCreateCluster, h1, h2, h3]

/-- Witness for `create_plan_strict_order` at concrete responses:
exemption succeeds, subnet creation fails with the conflict response. -/
theorem create_plan_strict_order_witness :
    (handleCreateCluster okApiResp conflictSubnetsResp okApiResp okApiResp).attempted =
        [CStep.exemption, CStep.subnets] ∧
      CStep.push ∉
        (handleCreateCluster okApiResp conflictSubnetsResp okApiResp okApiResp).attempted ∧
      CStep.start ∉
        (handleCreateCluster okApiResp conflictSubnetsResp okApiResp okApiResp).attempted ∧
      (handleCreateCluster okApiResp conflictSubnetsResp okApiResp okApiResp).successToasts =
        [if okApiResp.created then "Policy exemption created".toList
          else "Policy exemption already exists".toList] :=
  create_plan_strict_order.2.1 okApiResp conflictSubnetsResp okApiResp okApiResp
    (by decide) (by decide)

/-- Every classified create-failure toast title is one of the three
categories the catch branch knows: auth, authorization, generic. -/
theorem classifyCreateError_fst (msg : Str) :
    (classifyCreateError msg).1 = "You are not logged in".toList ∨
      (classifyCreateError msg).1 = "Access denied".toList ∨
      (classifyCreateError msg).1 = "Create cluster failed".toList := by
  unfold classifyCreateError
  split
  · exact Or.inl rfl
  · split
    · exact Or.inr (Or.inl rfl)
    · exact Or.inr (Or.inr rfl)

/-- C6 (counterexample): the subnet-create step's 409 conflict response
(`ok=false`, non-empty `conflicts`) does abort before the push step, but
it is reported under the toast title `Create cluster failed` — exactly
the title a plain generic failure gets, so the message is not a
name-conflict-specific one distinguishable from generic failure (the
create flow's catch has no conflict branch; `createSubnets` never reads
`conflicts`). -/
theorem subnet_conflict_message_not_specific :
    conflictSubnetsResp.ok = false ∧
      conflictSubnetsResp.conflicts ≠ [] ∧
      (handleCreateCluster okApiResp conflictSubnetsResp okApiResp
          okApiResp).errorToast.map Prod.fst =
        some "Create cluster failed".toList ∧
      (handleCreateCluster okApiResp genericFailResp okApiResp
          okApiResp).errorToast.map Prod.fst =
        some "Create cluster failed".toList ∧
      CStep.push ∉ (handleCreateCluster okApiResp conflictSubnetsResp okApiResp
        okApiResp).attempted := by
  decide

/-- C6 (amended): when the subnet-create step fails at the HTTP level
(as a 409 conflict does), the plan aborts before the config-push step —
but the failure is surfaced through the same three-way classifier as
every other create failure (auth / access-denied / generic
`Create cluster failed` carrying the server's error text); no
name-conflict-specific category exists in this flow. -/
theorem subnet_http_failure_aborts_before_push
    (exR subR pushR startR : ApiResp)
    (hex : httpRespOk exR = true) (hsub : httpRespOk subR = false) :
    CStep.push ∉ (handleCreateCluster exR subR pushR startR).attempted ∧
      CStep.start ∉ (handleCreateCluster exR subR pushR startR).attempted ∧
      ((handleCreateCluster exR subR pushR startR).errorToast.map Prod.fst =
          some "You are not logged in".toList ∨
        (handleCreateCluster exR subR pushR startR).errorToast.map Prod.fst =
          some "Access denied".toList ∨
        (handleCreateCluster exR subR pushR startR).errorToast.map Prod.fst =
          some "Create cluster failed".toList) := by
  have h1 : apiJson exR = Except.ok exR := by simp [apiJson, hex]
  have h2 : apiJson subR = Except.error
      (subR.error.getD (("Request failed (" ++ toString subR.status ++ ")").toList)) := by
    simp [apiJson, hsub]
  refine ⟨?_, ?_, ?_⟩
  · simp [handleCreateCluster, h1, h2]
  · simp [handleCreateCluster, h1, h2]
  · have houtcome : (handleCreateCluster exR subR pushR startR).errorToast =
        some (classifyCreateError (subR.error.getD
          (("Request failed (" ++ toString subR.status ++ ")").toList))) := by
      simp [handleCreateCluster, h1, h2]
    rw [houtcome]
    rcases classifyCreateError_fst (subR.error.getD
        (("Request failed (" ++ toString subR.status ++ ")").toList)) with
      h | h | h
    · exact Or.inl (congrArg some h)
    · exact Or.inr (Or.inl (congrArg some h))
    · exact Or.inr (Or.inr (congrArg some h))

/-- Witness for `subnet_http_failure_aborts_before_push` at the concrete
conflict response. -/
theorem subnet_http_failure_aborts_witness :
    CStep.push ∉ (handleCreateCluster okApiResp conflictSubnetsResp okApiResp
        okApiResp).attempted ∧
      CStep.start ∉ (handleCreateCluster okApiResp conflictSubnetsResp okApiResp
        okApiResp).attempted ∧
      ((handleCreateCluster okApiResp conflictSubnetsResp okApiResp
            okApiResp).errorToast.map Prod.fst =
          some "You are not logged in".toList ∨
        (handleCreateCluster okApiResp conflictSubnetsResp okApiResp
            okApiResp).errorToast.map Prod.fst =
          some "Access denied".toList ∨
        (handleCreateCluster okApiResp conflictSubnetsResp okApiResp
            okApiResp).errorToast.map Prod.fst =
          some "Create cluster failed".toList) :=
  subnet_http_failure_aborts_before_push okApiResp conflictSubnetsResp okApiResp
    okApiResp (by decide) (by decide)

/-- C7 (counterexample): the installer-start step of the create plan, as
invoked by `handleCreateCluster`, is a plain `fetch` carrying no timeout
at all — refuting that every orchestration step carries its own
timeout. -/
theorem installer_start_has_no_timeout :
    createStepTimeoutMs CStep.start = none ∧
      (createStepTimeoutMs CStep.start).isSome = false := ⟨rfl, rfl⟩

/-- C7 (amended): every create-plan step except the installer-start
fetch carries its own timeout (exemption 60 s; subnet-create and
config-push 600 s), the destroy step carries 600 s, no assigned timeout
exceeds the config-push step's 600 s (the maximum is shared with
subnet-create and destroy), and a request that exceeds its timeout
yields that step's failure with a `Request timed out` message from a
single, unretried attempt. -/
theorem step_timeouts_and_timeout_failure :
    createStepTimeoutMs CStep.exemption = some Tshort ∧
      createStepTimeoutMs CStep.subnets = some Tlong ∧
      createStepTimeoutMs CStep.push = some Tlong ∧
      createStepTimeoutMs CStep.start = none ∧
      destroyTimeoutMs = some Tlong ∧
      (∀ (s : CStep) (t : Nat), createStepTimeoutMs s = some t → t ≤ Tlong) ∧
      (∀ (t l : Nat) (r : ApiResp), t ≤ l →
        fetchWithTimeout t l r = Except.error
          (("Request timed out after " ++ toString (t / 1000) ++ "s").toList)) := by
  refine ⟨rfl, rfl, rfl, rfl, rfl, ?_, ?_⟩
  · intro s t h
    cases s <;> simp [createStepTimeoutMs, Tshort, Tlong] at h ⊢ <;> omega
  · intro t l r h
    unfold fetchWithTimeout
    rw [if_neg (by omega)]

/-- Witness for `step_timeouts_and_timeout_failure`: the subnet-create
timeout is within the push step's bound, and a 60 s call that takes
61 s fails with the timeout message. -/
theorem step_timeouts_witness :
    Tlong ≤ Tlong ∧
      fetchWithTimeout 60000 61000 okApiResp = Except.error
        (("Request timed out after " ++ toString (60000 / 1000) ++ "s").toList) :=
  ⟨step_timeouts_and_timeout_failure.2.2.2.2.2.1 CStep.subnets Tlong rfl,
    step_timeouts_and_timeout_failure.2.2.2.2.2.2 60000 61000 okApiResp (by omega)⟩

/-! ## The hold-to-confirm gate -/

/-- Per-press-hold session state of `ClusterCard` in
`DeleteClusterCard.tsx`: `startRef` (null until the first timing
signal), `progressMs`, the one-shot `firedRef` latch, and a ghost count
of how many times the bound action (`onDelete`) has been invoked. -/
structure HoldSession where
  start : Option Int
  progressMs : Int
  fired : Bool
  invocations : Nat
  deriving DecidableEq, Repr

/-- `ClusterCard.tick` (`DeleteClusterCard.tsx`, lines 35-48): the start
timestamp is latched on the first signal, elapsed time is clamped to
`holdMs`, and the action fires only when the clamp has reached `holdMs`
and the `fired` latch is still unset. -/
def ccTick (holdMs : Int) (s : HoldSession) (now : Int) : HoldSession :=
  let startv := s.start.getD now
  let elapsed := now - startv
  let clamped := min elapsed holdMs
  if holdMs ≤ clamped ∧ s.fired = false then
    { start := some startv, progressMs := clamped, fired := true,
      invocations := s.invocations + 1 }
  else
    { s with start := some startv, progressMs := clamped }

/-- One press-hold session of `ClusterCard`: `startHold` resets
`startRef`/`firedRef`, then the timing signals arrive. -/
def runCcSession (holdMs : Int) (ts : List Int) : HoldSession :=
  ts.foldl (ccTick holdMs)
    { start := none, progressMs := 0, fired := false, invocations := 0 }

/-- Per-press-hold session state of `HoldToConfirmButton`: the refs —
`startRef` with its `0`-as-unset (falsy) sentinel, exactly as the
code's `if (!startRef.current) startRef.current = ts`, and the
`firedRef` latch — plus a ghost count of `onConfirm` invocations.  The
`holding` React state is deliberately not a field: `tick` reads it from
the closure of the render that created the callback, so it enters
`htcTick` as the captured value, not as live session state. -/
structure HtcSession where
  startTs : Int
  fired : Bool
  invocations : Nat
  deriving DecidableEq, Repr

/-- `HoldToConfirmButton.tick` (`HoldToConfirmButton.tsx`, lines 37-52):
`if (!holding) return` reads the `holding` state captured by the render
that created this callback (`useState` values are per-render constants,
not refs), so the guard tests `holdingCaptured`; then the start
timestamp is latched, and the progress fraction
`p = min(1, elapsed / holdMs)` reaches `1` exactly when
`holdMs ≤ elapsed` (for a positive `holdMs`), which together with the
`firedRef` latch is the firing condition. -/
def htcTick (holdMs : Int) (holdingCaptured : Bool) (s : HtcSession)
    (ts : Int) : HtcSession :=
  if holdingCaptured = false then s
  else
    let startv := if s.startTs = 0 then ts else s.startTs
    let elapsed := ts - startv
    if holdMs ≤ elapsed ∧ s.fired = false then
      { s with startTs := startv, fired := true,
               invocations := s.invocations + 1 }
    else
      { s with startTs := startv }

/-- One press-hold session of `HoldToConfirmButton` as actually
scheduled: `start()` runs in a render where `holding` is still `false`,
queues `setHolding(true)` — which cannot mutate any existing closure's
binding — and registers `requestAnimationFrame(tick)` with that same
render's `tick`.  Every tick of the chain that callback could schedule
therefore carries the captured `holding = false` (and in fact the first
tick returns before scheduling another frame). -/
def runHtcSession (holdMs : Int) (ts : List Int) : HtcSession :=
  ts.foldl (htcTick holdMs false)
    { startTs := 0, fired := false, invocations := 0 }

/-- `ccTick` with its let-bindings expanded, for rewriting. -/
theorem ccTick_eq (holdMs : Int) (s : HoldSession) (now : Int) :
    ccTick holdMs s now =
      if holdMs ≤ min (now - s.start.getD now) holdMs ∧ s.fired = false then
        { start := some (s.start.getD now),
          progressMs := min (now - s.start.getD now) holdMs,
          fired := true, invocations := s.invocations + 1 }
      else
        { s with start := some (s.start.getD now),
                 progressMs := min (now - s.start.getD now) holdMs } := rfl

theorem ccTick_fired_stays (holdMs : Int) (ts : List Int) :
    ∀ s : HoldSession, s.fired = true →
      (ts.foldl (ccTick holdMs) s).fired = true ∧
        (ts.foldl (ccTick holdMs) s).invocations = s.invocations := by
  induction ts with
  | nil => intro s h; exact ⟨h, rfl⟩
  | cons t rest ih =>
    intro s h
    rw [List.foldl_cons, ccTick_eq, if_neg (by simp [h])]
    have := ih
      { s with start := some (s.start.getD t),
               progressMs := min (t - s.start.getD t) holdMs }
      (by simp [h])
    simpa using this

theorem ccSession_aux (holdMs t0 : Int) (ts : List Int) :
    ∀ s : HoldSession, s.start = some t0 → s.fired = false →
      (ts.foldl (ccTick holdMs) s).invocations =
        s.invocations + (if ∃ t ∈ ts, holdMs ≤ t - t0 then 1 else 0) := by
  induction ts with
  | nil => intro s _ _; simp
  | cons t rest ih =>
    intro s hs hf
    rw [List.foldl_cons, ccTick_eq, hs]
    simp only [Option.getD_some]
    by_cases hcond : holdMs ≤ min (t - t0) holdMs
    · rw [if_pos ⟨hcond, hf⟩]
      rw [(ccTick_fired_stays holdMs rest
        { start := some t0, progressMs := min (t - t0) holdMs,
          fired := true, invocations := s.invocations + 1 } rfl).2]
      have ht : holdMs ≤ t - t0 := le_trans hcond (min_le_left _ _)
      rw [if_pos ⟨t, List.mem_cons_self t rest, ht⟩]
    · rw [if_neg (fun hc => hcond hc.1)]
      rw [ih { s with start := some t0, progressMs := min (t - t0) holdMs }
        rfl hf]
      have hnot : ¬ holdMs ≤ t - t0 := fun hle => hcond (le_min hle le_rfl)
      have hiff : (∃ u ∈ t :: rest, holdMs ≤ u - t0) ↔
          (∃ u ∈ rest, holdMs ≤ u - t0) := by
        constructor
        · rintro ⟨u, hu, hle⟩
          rcases List.mem_cons.mp hu with rfl | hu2
          · exact absurd hle hnot
          · exact ⟨u, hu2, hle⟩
        · rintro ⟨u, hu, hle⟩
          exact ⟨u, List.mem_cons_of_mem t hu, hle⟩
      simp only [hiff]

theorem ccSession_invocations (holdMs t0 : Int) (ts : List Int) :
    (runCcSession holdMs (t0 :: ts)).invocations =
      if ∃ t ∈ t0 :: ts, holdMs ≤ t - t0 then 1 else 0 := by
  unfold runCcSession
  by_cases h0 : holdMs ≤ min (t0 - t0) holdMs
  · have hstep : ccTick holdMs
        { start := none, progressMs := 0, fired := false, invocations := 0 } t0 =
        { start := some t0, progressMs := min (t0 - t0) holdMs,
          fired := true, invocations := 1 } := by
      have h0' : holdMs ≤ (0 : Int) := by
        have := le_trans h0 (min_le_left (t0 - t0) holdMs)
        omega
      simp [ccTick, h0']
    rw [List.foldl_cons, hstep]
    rw [(ccTick_fired_stays holdMs ts
      { start := some t0, progressMs := min (t0 - t0) holdMs,
        fired := true, invocations := 1 } rfl).2]
    have ht : holdMs ≤ t0 - t0 := le_trans h0 (min_le_left _ _)
    rw [if_pos ⟨t0, List.mem_cons_self t0 ts, ht⟩]
  · have hstep : ccTick holdMs
        { start := none, progressMs := 0, fired := false, invocations := 0 } t0 =
        { start := some t0, progressMs := min (t0 - t0) holdMs,
          fired := false, invocations := 0 } := by
      have h0' : ¬ holdMs ≤ (0 : Int) := by
        intro hc
        exact h0 (le_min (by omega) le_rfl)
      simp [ccTick, h0']
    rw [List.foldl_cons, hstep]
    rw [ccSession_aux holdMs t0 ts
      { start := some t0, progressMs := min (t0 - t0) holdMs,
        fired := false, invocations := 0 } rfl rfl]
    have hnot : ¬ holdMs ≤ t0 - t0 := fun hle => h0 (le_min hle le_rfl)
    have hiff : (∃ u ∈ t0 :: ts, holdMs ≤ u - t0) ↔
        (∃ u ∈ ts, holdMs ≤ u - t0) := by
      constructor
      · rintro ⟨u, hu, hle⟩
        rcases List.mem_cons.mp hu with rfl | hu2
        · exact absurd hle hnot
        · exact ⟨u, hu2, hle⟩
      · rintro ⟨u, hu, hle⟩
        exact ⟨u, List.mem_cons_of_mem t0 hu, hle⟩
    simp only [hiff]
    simp

theorem foldl_htcTick_stale (holdMs : Int) (ts : List Int) :
    ∀ s : HtcSession, ts.foldl (htcTick holdMs false) s = s := by
  induction ts with
  | nil => intro s; rfl
  | cons t rest ih => intro s; exact ih s

/-- C4 (counterexample): `HoldToConfirmButton` never fires.  With a
5000 ms threshold and timing signals at 1 and 6001 ms — a hold
sustained well past the threshold — the session invokes `onConfirm`
zero times, not exactly once: the animation-frame callback scheduled by
`start()` closed over the render-time `holding = false` and returns on
its first frame. -/
theorem htc_sustained_hold_fires_zero :
    (5000 : Int) ≤ 6001 - 1 ∧
      (runHtcSession 5000 [1, 6001]).invocations = 0 ∧
      (runHtcSession 5000 [1, 6001]).invocations ≠ 1 := by
  refine ⟨by decide, rfl, by decide⟩

/-- C4 (amended): the delete-card gate (`ClusterCard.tick` /
`onDelete`) reads only refs inside its tick, so a session sustained to
the threshold invokes the action exactly once and any session at all
invokes it at most once — the `firedRef` latch blocks re-invocation
however many post-threshold timing signals arrive before the action
settles.  The `HoldToConfirmButton` gate (`onConfirm`) invokes its
action zero times in every session: its tick exits on the stale
captured `holding = false`. -/
theorem hold_gate_invocation_counts (holdMs t0 u0 : Int)
    (ts ts2 ts3 : List Int)
    (hsustained : ∃ t ∈ t0 :: ts, holdMs ≤ t - t0) :
    (runCcSession holdMs (t0 :: ts)).invocations = 1 ∧
      (runCcSession holdMs (u0 :: ts2)).invocations ≤ 1 ∧
      (runHtcSession holdMs ts3).invocations = 0 := by
  refine ⟨?_, ?_, ?_⟩
  · rw [ccSession_invocations, if_pos hsustained]
  · rw [ccSession_invocations]
    split <;> omega
  · unfold runHtcSession
    rw [foldl_htcTick_stale holdMs ts3]

/-- Witness for `hold_gate_invocation_counts`: a 5000 ms threshold,
first signal at 1 ms, signals at 3000, 6001, 7000 and 8000 ms — several
of them past the threshold — yield exactly one `onDelete` invocation,
while the same kind of session never invokes `onConfirm`. -/
theorem hold_gate_invocation_counts_witness :
    (runCcSession 5000 (1 :: [3000, 6001, 7000, 8000])).invocations = 1 ∧
      (runCcSession 5000 (1 :: [9000, 9100])).invocations ≤ 1 ∧
      (runHtcSession 5000 [2, 7002]).invocations = 0 :=
  hold_gate_invocation_counts 5000 1 1 [3000, 6001, 7000, 8000]
    [9000, 9100] [2, 7002] ⟨6001, by decide, by decide⟩

/-! ## The delete panel's deletable-cluster filter -/

/-- `AzureClusterStatus` (`ClusterContext`): the four discovery states. -/
inductive AzureClusterStatus where
  | running
  | deploying
  | pending
  | failed
  deriving DecidableEq, Repr

/-- `AzureCluster` (`ClusterContext`): a discovered cluster. -/
structure AzureCluster where
  id : Str
  name : Str
  infra : Str
  resourceGroup : Str
  subscriptionId : Str
  status : AzureClusterStatus
  dnsZone : Str
  dnsZoneFound : Bool
  deriving DecidableEq, Repr

/-- `DeleteClusterPanel.deletableClusters` (source lines 387-390):
`list.filter((c) => c.status === "running" || c.status === "failed")`. -/
def deletableClusters (clusters : List AzureCluster) : List AzureCluster :=
  clusters.filter (fun c =>
    c.status == AzureClusterStatus.running ||
      c.status == AzureClusterStatus.failed)

/-- C10: a cluster whose status is `deploying` or `pending` is never in
the deletable set offered by the delete panel, for any input list — so
no hold-to-confirm destroy gate is rendered for it and a destroy cannot
be initiated from this panel for such a cluster. -/
theorem deploying_pending_not_deletable (clusters : List AzureCluster)
    (c : AzureCluster)
    (hstatus : c.status = AzureClusterStatus.deploying ∨
      c.status = AzureClusterStatus.pending) :
    c ∉ deletableClusters clusters := by
  intro hmem
  have hfil := (List.mem_filter.mp hmem).2
  rcases hstatus with h | h <;> rw [h] at hfil <;> simp at hfil

/-- A deploying cluster used as the concrete witness input. -/
def deployingCluster : AzureCluster :=
  { id := "sub-1".toList, name := "demo-openshift".toList,
    infra := "ab1cd".toList, resourceGroup := "demo-rg".toList,
    subscriptionId := "sub".toList, status := AzureClusterStatus.deploying,
    dnsZone := "demo.example.net".toList, dnsZoneFound := true }

/-- Witness for `deploying_pending_not_deletable`: the deploying cluster
is excluded even when it is the only cluster in the list. -/
theorem deploying_pending_not_deletable_witness :
    deployingCluster ∉ deletableClusters [deployingCluster] :=
  deploying_pending_not_deletable [deployingCluster] deployingCluster
    (Or.inl rfl)

/-! ## Cluster-name resolution (`finalClusterName`) -/

/-- The ASCII whitespace recognised by the model of
`String.prototype.trim` (space, tab, line feed, carriage return,
vertical tab, form feed), compared by code point. -/
def isWsChar (c : Char) : Bool :=
  c.toNat = 32 || c.toNat = 9 || c.toNat = 10 || c.toNat = 13 ||
    c.toNat = 11 || c.toNat = 12

/-- JS `s.trim()`: drop whitespace from both ends. -/
def trimStr (s : Str) : Str :=
  (((s.dropWhile isWsChar).reverse).dropWhile isWsChar).reverse

/-- JS `s.endsWith(t)`. -/
def strEndsWith (s t : Str) : Bool := t.isSuffixOf s

/-- The literal `'-openshift'`. -/
def openshiftSuffix : Str := "-openshift".toList

/-- `finalClusterName` (`CreateClusterForm.tsx` source, lines 166-171):
trim; empty stays empty; otherwise lowercase and append `-openshift`
unless the lowercased name already ends with it. -/
def finalClusterName (name : Str) : Str :=
  let trimmed := trimStr name
  if trimmed = [] then []
  else
    let lower := lowerStr trimmed
    if strEndsWith lower openshiftSuffix then lower
    else lower ++ openshiftSuffix

theorem toNat_ofNat_of_valid {n : Nat} (h : n < 55296) :
    (Char.ofNat n).toNat = n := by
  have hv : n.isValidChar := Or.inl h
  rw [Char.ofNat, dif_pos hv]
  rfl

theorem lowerChar_toNat (c : Char) :
    (lowerChar c).toNat =
      if 65 ≤ c.toNat ∧ c.toNat ≤ 90 then c.toNat + 32 else c.toNat := by
  unfold lowerChar
  by_cases h : 65 ≤ c.toNat ∧ c.toNat ≤ 90
  · rw [if_pos h, if_pos h]
    exact toNat_ofNat_of_valid (by omega)
  · rw [if_neg h, if_neg h]

theorem lowerChar_idem (c : Char) : lowerChar (lowerChar c) = lowerChar c := by
  by_cases h : 65 ≤ c.toNat ∧ c.toNat ≤ 90
  · have ht : (lowerChar c).toNat = c.toNat + 32 := by
      rw [lowerChar_toNat, if_pos h]
    have hcond : ¬ (65 ≤ (lowerChar c).toNat ∧ (lowerChar c).toNat ≤ 90) := by
      rw [ht]
      omega
    calc lowerChar (lowerChar c)
        = if 65 ≤ (lowerChar c).toNat ∧ (lowerChar c).toNat ≤ 90 then
            Char.ofNat ((lowerChar c).toNat + 32) else lowerChar c := rfl
      _ = lowerChar c := if_neg hcond
  · have ht : lowerChar c = c := by
      unfold lowerChar
      rw [if_neg h]
    rw [ht]
    exact ht

theorem lowerChar_not_ws (c : Char) (h : isWsChar c = false) :
    isWsChar (lowerChar c) = false := by
  by_cases hc : 65 ≤ c.toNat ∧ c.toNat ≤ 90
  · have ht : (lowerChar c).toNat = c.toNat + 32 := by
      rw [lowerChar_toNat, if_pos hc]
    simp only [isWsChar, ht, Bool.or_eq_false_iff, decide_eq_false_iff_not]
    omega
  · have ht : lowerChar c = c := by
      unfold lowerChar
      rw [if_neg hc]
    rw [ht]
    exact h

theorem lowerStr_ne_nil (s : Str) (h : s ≠ []) : lowerStr s ≠ [] := by
  simp [lowerStr, h]

theorem lowerStr_idem (s : Str) : lowerStr (lowerStr s) = lowerStr s := by
  simp [lowerStr, List.map_map, Function.comp_def, lowerChar_idem]

theorem lowerStr_append (x y : Str) :
    lowerStr (x ++ y) = lowerStr x ++ lowerStr y := by
  simp [lowerStr]

theorem lowerStr_openshiftSuffix : lowerStr openshiftSuffix = openshiftSuffix := by
  decide

theorem dropWhile_eq_self_of_head (p : Char → Bool) (l : Str) (a : Char)
    (ha : l.head? = some a) (hpa : p a = false) : l.dropWhile p = l := by
  cases l with
  | nil => rfl
  | cons x xs =>
    have hx : x = a := by simpa using ha
    subst hx
    rw [List.dropWhile_cons, if_neg (by simp [hpa])]

theorem trimStr_eq_self (l : Str) (a b : Char)
    (hh : l.head? = some a) (hl : l.getLast? = some b)
    (ha : isWsChar a = false) (hb : isWsChar b = false) :
    trimStr l = l := by
  unfold trimStr
  rw [dropWhile_eq_self_of_head isWsChar l a hh ha]
  rw [dropWhile_eq_self_of_head isWsChar l.reverse b
    (by rw [List.head?_reverse, hl]) hb]
  exact List.reverse_reverse l

theorem trimStr_head_last (s : Str) (h : trimStr s ≠ []) :
    (∃ a, (trimStr s).head? = some a ∧ isWsChar a = false) ∧
      (∃ b, (trimStr s).getLast? = some b ∧ isWsChar b = false) := by
  have hb1 : (s.dropWhile isWsChar).reverse.dropWhile isWsChar ≠ [] := by
    intro hnil
    apply h
    unfold trimStr
    rw [hnil]
    rfl
  have ha1 : s.dropWhile isWsChar ≠ [] := by
    intro hnil
    apply hb1
    rw [hnil]
    rfl
  constructor
  · obtain ⟨u, hu⟩ :=
      List.dropWhile_suffix (l := (s.dropWhile isWsChar).reverse) isWsChar
    refine ⟨(s.dropWhile isWsChar).head ha1, ?_, ?_⟩
    · show (trimStr s).head? = _
      unfold trimStr
      rw [List.head?_reverse]
      have h1 : ((s.dropWhile isWsChar).reverse.dropWhile isWsChar).getLast? =
          ((s.dropWhile isWsChar).reverse).getLast? := by
        conv_rhs => rw [← hu]
        rw [List.getLast?_append]
        rw [List.getLast?_eq_getLast _ hb1]
        rfl
      rw [h1, List.getLast?_reverse, List.head?_eq_head ha1]
    · exact List.head_dropWhile_not isWsChar s ha1
  · refine ⟨((s.dropWhile isWsChar).reverse.dropWhile isWsChar).head hb1, ?_, ?_⟩
    · show (trimStr s).getLast? = _
      unfold trimStr
      rw [List.getLast?_reverse, List.head?_eq_head hb1]
    · exact List.head_dropWhile_not isWsChar _ hb1

theorem strEndsWith_append (l : Str) :
    strEndsWith (l ++ openshiftSuffix) openshiftSuffix = true := by
  unfold strEndsWith
  exact List.isSuffixOf_iff_suffix.mpr (List.suffix_append l openshiftSuffix)

theorem getLast?_of_endsWith (y : Str)
    (h : strEndsWith y openshiftSuffix = true) : y.getLast? = some 't' := by
  obtain ⟨u, hu⟩ := List.isSuffixOf_iff_suffix.mp h
  rw [← hu, List.getLast?_append]
  have hsuffix : openshiftSuffix.getLast? = some 't' := by decide
  rw [hsuffix]
  rfl

theorem finalClusterName_fixed (y : Str) (hy : y ≠ [])
    (hhead : ∃ a, y.head? = some a ∧ isWsChar a = false)
    (hlast : ∃ b, y.getLast? = some b ∧ isWsChar b = false)
    (hlow : lowerStr y = y)
    (hsuf : strEndsWith y openshiftSuffix = true) :
    finalClusterName y = y := by
  obtain ⟨a, ha, hwa⟩ := hhead
  obtain ⟨b, hb, hwb⟩ := hlast
  have htrim : trimStr y = y := trimStr_eq_self y a b ha hb hwa hwb
  simp [finalClusterName, htrim, hy, hlow, hsuf]

theorem finalClusterName_cases (s : Str) (h : trimStr s ≠ []) :
    (strEndsWith (lowerStr (trimStr s)) openshiftSuffix = true ∧
        finalClusterName s = lowerStr (trimStr s)) ∨
      (strEndsWith (lowerStr (trimStr s)) openshiftSuffix = false ∧
        finalClusterName s = lowerStr (trimStr s) ++ openshiftSuffix) := by
  by_cases he : strEndsWith (lowerStr (trimStr s)) openshiftSuffix = true
  · exact Or.inl ⟨he, by simp [finalClusterName, h, he]⟩
  · have he' : strEndsWith (lowerStr (trimStr s)) openshiftSuffix = false := by
      simpa using he
    exact Or.inr ⟨he', by simp [finalClusterName, h, he']⟩

theorem finalClusterName_empty_iff (s : Str) :
    finalClusterName s = [] ↔ trimStr s = [] := by
  by_cases h : trimStr s = []
  · simp [finalClusterName, h]
  · simp only [h, iff_false]
    rcases finalClusterName_cases s h with ⟨_, hf⟩ | ⟨_, hf⟩
    · rw [hf]
      exact lowerStr_ne_nil _ h
    · rw [hf]
      exact List.append_ne_nil_of_right_ne_nil _ (by decide)

theorem finalClusterName_idem (s : Str) :
    finalClusterName (finalClusterName s) = finalClusterName s := by
  by_cases h : trimStr s = []
  · have h0 : finalClusterName s = [] := by simp [finalClusterName, h]
    rw [h0]
    rfl
  · obtain ⟨⟨a, hha, hwa⟩, _⟩ := trimStr_head_last s h
    have hlne : lowerStr (trimStr s) ≠ [] := lowerStr_ne_nil _ h
    have hh : (lowerStr (trimStr s)).head? = some (lowerChar a) := by
      simp only [lowerStr, List.head?_map, hha, Option.map_some']
    rcases finalClusterName_cases s h with ⟨he, hf⟩ | ⟨he, hf⟩
    · rw [hf]
      apply finalClusterName_fixed
      · exact hlne
      · exact ⟨lowerChar a, hh, lowerChar_not_ws a hwa⟩
      · exact ⟨'t', getLast?_of_endsWith _ he, by decide⟩
      · exact lowerStr_idem _
      · exact he
    · rw [hf]
      apply finalClusterName_fixed
      · exact List.append_ne_nil_of_right_ne_nil _ (by decide)
      · refine ⟨lowerChar a, ?_, lowerChar_not_ws a hwa⟩
        rw [List.head?_append, hh]
        rfl
      · exact ⟨'t', getLast?_of_endsWith _ (strEndsWith_append _), by decide⟩
      · rw [lowerStr_append, lowerStr_idem, lowerStr_openshiftSuffix]
      · exact strEndsWith_append _

/-- C9: `finalClusterName` trims and lowercases the raw name; it appends
`-openshift` exactly when the lowercased trimmed name does not already
end with it; it is idempotent (the suffix is never doubled); and it
yields the empty string exactly when the trimmed input is empty. -/
theorem finalClusterName_normalization (s : Str) :
    finalClusterName (finalClusterName s) = finalClusterName s ∧
      (finalClusterName s = [] ↔ trimStr s = []) ∧
      (trimStr s ≠ [] →
        strEndsWith (lowerStr (trimStr s)) openshiftSuffix = false →
        finalClusterName s = lowerStr (trimStr s) ++ openshiftSuffix) ∧
      (trimStr s ≠ [] →
        strEndsWith (lowerStr (trimStr s)) openshiftSuffix = true →
        finalClusterName s = lowerStr (trimStr s)) := by
  refine ⟨finalClusterName_idem s, finalClusterName_empty_iff s, ?_, ?_⟩
  · intro h he
    simp [finalClusterName, h, he]
  · intro h he
    simp [finalClusterName, h, he]

/-- Witness for `finalClusterName_normalization` on the raw input
`"  Foo  "`: the resolved name is `foo-openshift`, resolving again
changes nothing, and the result is nonempty. -/
theorem finalClusterName_normalization_witness :
    finalClusterName (finalClusterName "  Foo  ".toList) =
        finalClusterName "  Foo  ".toList ∧
      (finalClusterName "  Foo  ".toList = [] ↔ trimStr "  Foo  ".toList = []) ∧
      finalClusterName "  Foo  ".toList =
        lowerStr (trimStr "  Foo  ".toList) ++ openshiftSuffix :=
  ⟨(finalClusterName_normalization _).1,
    (finalClusterName_normalization _).2.1,
    (finalClusterName_normalization _).2.2.1 (by decide) (by decide)⟩
